import Mathlib

/-
  Verification development for the voice-operated archive assistant:
  a shallow embedding of the command-intent routing and conversation-state
  engine (`src/core/command_handler.py`) and of the LLM-response
  post-processing (`src/core/ollama_client.py`), together with theorems
  settling the specified properties.

  Texts are modelled as `List Char`.  Python's `str.replace`,
  `in`-substring tests, the regular expressions used by the handler, and
  the conversation-state dictionary are embedded one definition per
  source construct; each definition cites the source symbol it embeds.
-/

set_option maxRecDepth 8000

namespace VoiceCore

/-- Characters of a string literal, in order (texts are `List Char`). -/
def s2l (s : String) : List Char := s.data

/-- Python `pat in text`: substring containment test. -/
def containsSub (l pat : List Char) : Bool :=
  pat.isPrefixOf l ||
    match l with
    | [] => false
    | _ :: t => containsSub t pat

/-- Python `any(w in text for w in ws)`. -/
def anyIn (l : List Char) (ws : List (List Char)) : Bool :=
  ws.any (fun w => containsSub l w)

/-- Fuel-driven worker for `replaceAll`; `fuel ≥ l.length` makes it total
    on `l` (one fuel unit is spent per consumed character or match). -/
def replaceAllF (pat rep : List Char) : Nat → List Char → List Char
  | _, [] => []
  | 0, l => l
  | fuel + 1, c :: rest =>
    if !pat.isEmpty && pat.isPrefixOf (c :: rest) then
      rep ++ replaceAllF pat rep fuel ((c :: rest).drop pat.length)
    else
      c :: replaceAllF pat rep fuel rest

/-- Python `text.replace(pat, rep)`: every occurrence, left to right,
    non-overlapping, scanning resumes after the replacement text. -/
def replaceAll (pat rep l : List Char) : List Char :=
  replaceAllF pat rep l.length l

/-- Python `text.replace(pat, "")` (deletion). -/
def removeAll (pat l : List Char) : List Char := replaceAll pat [] l

/-- ASCII lower-casing, Python `str.lower()` on the texts in scope
    (CJK characters are unaffected by `lower`). -/
def toLowerAscii (l : List Char) : List Char := l.map Char.toLower

/-- Whitespace characters recognised by Python's `\s` / `str.strip()`
    on the texts in scope (ASCII whitespace plus the ideographic space). -/
def isWs (c : Char) : Bool :=
  c == ' ' || c == '\t' || c == '\n' || c == '\r' || c == '\x0b' ||
    c == '\x0c' || c == '　'

/-- Python `str.strip()`: drop leading and trailing whitespace. -/
def trimWs (l : List Char) : List Char :=
  ((l.dropWhile isWs).reverse.dropWhile isWs).reverse

/-- The CJK unified-ideograph range `一-龥` kept by `_clean_text`. -/
def isCJK (c : Char) : Bool :=
  0x4e00 ≤ c.toNat && c.toNat ≤ 0x9fa5

/-- A character kept as a "word-like" character: Python `\w` restricted to
    the alphabets occurring in this system (ASCII alphanumerics,
    underscore) plus the explicitly kept CJK range. -/
def isWordLike (c : Char) : Bool :=
  c.isAlphanum || c == '_' || isCJK c

/-- A character surviving step 1 of `_clean_text`
    (`re.sub(r'[^\w一-龥\s]', '', text)`). -/
def keepChar (c : Char) : Bool := isWordLike c || isWs c

/-- The discourse-filler table of `_clean_text` (deleted in this order). -/
def fillerWords : List (List Char) :=
  [s2l "啊", s2l "呢", s2l "吧", s2l "呀", s2l "哦", s2l "嗯",
   s2l "那个", s2l "这个", s2l "然后", s2l "就是",
   s2l "啦", s2l "嘛", s2l "哟", s2l "呃", s2l "哎", s2l "喂",
   s2l "哈", s2l "哼", s2l "哇", s2l "呐"]

/-- The homophone-correction table of `_clean_text` (applied in insertion
    order; note the identity entries for 打开 and 关闭). -/
def commonErrors : List (List Char × List Char) :=
  [(s2l "相子", s2l "柜子"), (s2l "箱子", s2l "柜子"), (s2l "贵子", s2l "柜子"),
   (s2l "柜了", s2l "柜子"), (s2l "柜勒", s2l "柜子"), (s2l "柜啦", s2l "柜子"),
   (s2l "关毕", s2l "关闭"), (s2l "完毕", s2l "关闭"), (s2l "关掉", s2l "关闭"),
   (s2l "打开", s2l "打开"), (s2l "开启", s2l "打开"), (s2l "关闭", s2l "关闭"),
   (s2l "停止", s2l "关闭"), (s2l "类", s2l "列")]

/-- `CommandHandler._clean_text`: strip non-word symbols, delete filler
    words, apply homophone corrections, remove all whitespace. -/
def cleanText (text : List Char) : List Char :=
  if text = [] then [] else
  let c1 := text.filter keepChar
  let c2 := fillerWords.foldl (fun acc w => removeAll w acc) c1
  let c3 := commonErrors.foldl (fun acc p => replaceAll p.1 p.2 acc) c2
  c3.filter (fun c => !isWs c)

/-! ### Wake-word detection (`_is_pure_wakeup_call`) -/

def greetingWords : List (List Char) :=
  [s2l "你好", s2l "您好", s2l "嗨", s2l "嘿", s2l "喂", s2l "哈喽",
   s2l "hello", s2l "hi"]

def xiaozhiVariants : List (List Char) :=
  [s2l "小智", s2l "小知", s2l "小之", s2l "小志", s2l "小只", s2l "小指",
   s2l "小枝", s2l "小纸", s2l "小直", s2l "小稚"]

/-- `b` occurs somewhere ahead with no newline before it (the `.*?b` tail
    of a search pattern: `.` does not cross a newline). -/
def seekNoNl (b : List Char) : List Char → Bool
  | [] => b.isPrefixOf []
  | c :: t => b.isPrefixOf (c :: t) || (c != '\n' && seekNoNl b t)

/-- `re.search(a + ".*?" + b, l)` as a Boolean: some occurrence of `a` is
    followed, newline-free, by an occurrence of `b`. -/
def occursThen (a b : List Char) : List Char → Bool
  | [] => a.isPrefixOf [] && seekNoNl b []
  | c :: t =>
    (a.isPrefixOf (c :: t) && seekNoNl b ((c :: t).drop a.length)) ||
      occursThen a b t

/-- `CommandHandler._is_pure_wakeup_call`: greeting word and
    addressing-term variant in either order (case-insensitive search),
    plus the short-text fallback (length at most 4 and any indicator). -/
def isPureWakeupCall (text : List Char) : Bool :=
  if text = [] then false else
  let tl := toLowerAscii text
  (greetingWords.any fun g => xiaozhiVariants.any fun x =>
      occursThen g x tl || occursThen x g tl) ||
    (text.length ≤ 4 && anyIn text (xiaozhiVariants ++ greetingWords))

/-! ### Exit detection (`_is_exit_command`) -/

def chatExitKeywords : List (List Char) :=
  [s2l "退出聊天", s2l "结束聊天", s2l "停止聊天", s2l "不聊了",
   s2l "聊完了", s2l "结束对话"]

/-- The close-cabinet keyword list of `_is_exit_command`.  The source list
    omits a comma after 把柜子关上, so Python concatenates that literal
    with the following one into the single entry 把柜子关上关闭相子. -/
def closeCabinetKeywords : List (List Char) :=
  [s2l "关闭柜子", s2l "关柜子", s2l "关掉柜子", s2l "关上柜子",
   s2l "关毕柜子", s2l "完毕柜子",
   s2l "关闭档案柜", s2l "关档案柜", s2l "关掉档案柜", s2l "关上档案柜",
   s2l "关闭柜了", s2l "关柜了", s2l "关掉柜了", s2l "关上柜了",
   s2l "关相子", s2l "关箱子", s2l "关贵子", s2l "把柜子关上关闭相子",
   s2l "关闭箱子", s2l "关闭贵子"]

def deviceIndicators : List (List Char) :=
  [s2l "柜子", s2l "档案柜", s2l "柜", s2l "列", s2l "号", s2l "温度",
   s2l "湿度", s2l "度", s2l "通风", s2l "空调", s2l "换气", s2l "状态",
   s2l "查询", s2l "查看"]

/-- The substring after the first occurrence of `pat`
    (`text[text.find(pat) + len(pat):]`, given that `pat` occurs). -/
def afterFirst (pat : List Char) : List Char → List Char
  | [] => []
  | c :: t =>
    if pat.isPrefixOf (c :: t) then (c :: t).drop pat.length
    else afterFirst pat t

def exitPatternLiterals : List (List Char) :=
  [s2l "退出", s2l "结束", s2l "再见", s2l "拜拜",
   s2l "退出系统", s2l "结束对话", s2l "关闭系统",
   s2l "小智退出", s2l "小智再见", s2l "小智拜拜",
   s2l "系统退出", s2l "程序退出", s2l "应用退出",
   s2l "关闭助手", s2l "关闭语音", s2l "关闭对话",
   s2l "停止语音", s2l "停止对话"]

def exitKeywords : List (List Char) :=
  [s2l "退出", s2l "结束", s2l "结束对话", s2l "退出系统", s2l "再见",
   s2l "拜拜", s2l "停止语音", s2l "停止对话"]

def exitIndicators : List (List Char) :=
  [s2l "系统", s2l "程序", s2l "应用", s2l "助手", s2l "小智", s2l "语音",
   s2l "对话"]

/-- `CommandHandler._is_exit_command`.  `chatMode` is the handler's
    `chat_mode` field (nothing in the source ever sets it to `True`). -/
def isExitCommand (chatMode : Bool) (text : List Char) : Bool :=
  if text = [] then false else
  let cleaned := cleanText text
  let lower := trimWs (toLowerAscii cleaned)
  if chatMode && anyIn cleaned chatExitKeywords then true
  else if anyIn cleaned closeCabinetKeywords then false
  else if anyIn cleaned deviceIndicators then false
  else if containsSub cleaned (s2l "关闭") &&
      anyIn (afterFirst (s2l "关闭") cleaned) deviceIndicators then false
  else if exitPatternLiterals.any (fun p => lower == p) then true
  else if containsSub cleaned (s2l "关闭") then
    anyIn lower exitIndicators
  else
    anyIn lower exitKeywords

/-! ### Pattern searching

The handler's slot patterns all have the shape
`literal-lead  (character-class)+  suffix-alternative`, where no suffix
begins with a class character, so the greedy capture is exactly the
maximal class run and `re.search` finds the leftmost lead position at
which the whole shape matches. -/

/-- Try the shape `pre (cls)+ suffix` anchored at the head of `l`;
    returns the captured run. -/
def tryPatAt (pre : List Char) (cls : Char → Bool)
    (sufAlts : List (List Char)) (l : List Char) : Option (List Char) :=
  if pre.isPrefixOf l then
    let rest := l.drop pre.length
    let run := rest.takeWhile cls
    if !run.isEmpty &&
        (sufAlts.isEmpty ||
          sufAlts.any (fun s => s.isPrefixOf (rest.drop run.length))) then
      some run
    else none
  else none

/-- `re.search` for the shape `pre (cls)+ suffix`: leftmost match wins. -/
def searchGrp (pre : List Char) (cls : Char → Bool)
    (sufAlts : List (List Char)) : List Char → Option (List Char)
  | [] => tryPatAt pre cls sufAlts []
  | c :: t =>
    match tryPatAt pre cls sufAlts (c :: t) with
    | some g => some g
    | none => searchGrp pre cls sufAlts t

/-- A pattern: lead literal, class, suffix alternatives. -/
def PatShape : Type := List Char × (Char → Bool) × List (List Char)

/-- Run an ordered pattern list the way the source loops do: take the
    first pattern whose leftmost match also converts (a matching pattern
    whose captured group converts to nothing lets the loop continue). -/
def firstConv {α : Type} (pats : List PatShape)
    (conv : List Char → Option α) (text : List Char) : Option α :=
  match pats with
  | [] => none
  | (pre, cls, sufs) :: rest =>
    match searchGrp pre cls sufs text with
    | some g =>
      match conv g with
      | some v => some v
      | none => firstConv rest conv text
    | none => firstConv rest conv text

/-- Assoc-list lookup (Python `dict` lookup by string key). -/
def lookupStr {α : Type} (tbl : List (List Char × α)) (k : List Char) :
    Option α :=
  (tbl.find? (fun p => p.1 == k)).map (·.2)

/-- Numeric value of a digit string (`int(s)` for an all-digit `s`). -/
def natOfDigits (g : List Char) : Nat :=
  g.foldl (fun acc c => acc * 10 + (c.toNat - 48)) 0

/-! ### Selection-command detection (`_looks_like_selection_command`) -/

def cnSelChars : List Char := s2l "一二三四五六七八九十"

def isCnSel (c : Char) : Bool := cnSelChars.contains c

def isCnSelOrDigit (c : Char) : Bool := isCnSel c || c.isDigit

/-- Full-string tail `([cls]+)(end-class)$`. -/
def runEndFull (cls : Char → Bool) (ends : List Char) (l : List Char) :
    Bool :=
  let run := l.takeWhile cls
  !run.isEmpty &&
    (match l.dropWhile cls with
     | [e] => ends.contains e
     | _ => false)

/-- Drop `c` if it is the head (an optional single-character literal whose
    alternatives are decided deterministically here because `c` never
    belongs to the class that follows it). -/
def stripOpt (c : Char) (l : List Char) : List Char :=
  match l with
  | x :: t => if x == c then t else l
  | [] => l

def selClassEnds : List Char := s2l "条个项记录"

/-- `^第[一二三四五六七八九十\d]+[条个项记录]$` -/
def selFullDi (l : List Char) : Bool :=
  match l with
  | c :: t => c == '第' && runEndFull isCnSelOrDigit selClassEnds t
  | [] => false

/-- `^选择?第[一二三四五六七八九十\d]+[条个项记录]$` -/
def selFullChoiceDi (l : List Char) : Bool :=
  match l with
  | c :: t =>
    c == '选' &&
      (match stripOpt '择' t with
       | d :: t2 => d == '第' && runEndFull isCnSelOrDigit selClassEnds t2
       | [] => false)
  | [] => false

/-- `^[一二三四五六七八九十\d]+[条个项记录]$` -/
def selFullBare (l : List Char) : Bool :=
  runEndFull isCnSelOrDigit selClassEnds l

/-- `^选择?[一二三四五六七八九十\d]+[条个项记录]$` -/
def selFullChoiceBare (l : List Char) : Bool :=
  match l with
  | c :: t => c == '选' && runEndFull isCnSelOrDigit selClassEnds (stripOpt '择' t)
  | [] => false

/-- The anchored literal patterns of `_looks_like_selection_command`. -/
def selExactLiterals : List (List Char) :=
  [s2l "第一条", s2l "第二条", s2l "第三条", s2l "第四条", s2l "第五条",
   s2l "第一个", s2l "第二个", s2l "第三个", s2l "第四个", s2l "第五个",
   s2l "首选", s2l "首条", s2l "首个",
   s2l "选择一", s2l "选择二", s2l "选择三", s2l "选择四", s2l "选择五"]

/-- Search for `第[一二三四五六七八九十]+` (a 第 directly followed by a
    word-numeral character). -/
def hasDiCn : List Char → Bool
  | [] => false
  | c :: t =>
    (c == '第' && (match t with | d :: _ => isCnSel d | [] => false)) ||
      hasDiCn t

/-- Search for `[一二三四五六七八九十]+[条个]` (a word-numeral character
    directly followed by 条 or 个). -/
def hasCnEnd : List Char → Bool
  | [] => false
  | [_] => false
  | a :: b :: t =>
    (isCnSel a && (b == '条' || b == '个')) || hasCnEnd (b :: t)

/-- `CommandHandler._looks_like_selection_command`. -/
def looksLikeSelectionCommand (text : List Char) : Bool :=
  if text = [] then false else
  selFullDi text || selFullChoiceDi text || selFullBare text ||
    selFullChoiceBare text ||
    selExactLiterals.any (fun p => text == p) ||
    ((hasDiCn text || hasCnEnd text) && text.length ≤ 6)

/-! ### Selection-index extraction (the effective, later
`_extract_selection_index` definition) -/

def chineseNumbersSel : List (List Char × Nat) :=
  [(s2l "一", 1), (s2l "二", 2), (s2l "三", 3), (s2l "四", 4), (s2l "五", 5),
   (s2l "六", 6), (s2l "七", 7), (s2l "八", 8), (s2l "九", 9), (s2l "十", 10),
   (s2l "第一", 1), (s2l "第二", 2), (s2l "第三", 3), (s2l "第四", 4),
   (s2l "第五", 5), (s2l "第六", 6), (s2l "第七", 7), (s2l "第八", 8),
   (s2l "第九", 9), (s2l "第十", 10),
   (s2l "十一", 11), (s2l "十二", 12), (s2l "十三", 13), (s2l "十四", 14),
   (s2l "十五", 15), (s2l "十六", 16), (s2l "十七", 17), (s2l "十八", 18),
   (s2l "十九", 19), (s2l "二十", 20)]

/-- Convert a captured selection group: word-numeral table first, then
    `int(...)` on an all-digit group. -/
def numFromSel (g : List Char) : Option Nat :=
  match lookupStr chineseNumbersSel g with
  | some n => some n
  | none =>
    if !g.isEmpty && g.all Char.isDigit then some (natOfDigits g) else none

def selPatterns : List PatShape :=
  [(s2l "第", isCnSel, [s2l "条"]), (s2l "第", isCnSel, [s2l "个"]),
   ([], isCnSel, [s2l "条"]), ([], isCnSel, [s2l "个"]),
   (s2l "选择第", isCnSel, [s2l "条"]), (s2l "选择第", isCnSel, [s2l "个"]),
   (s2l "第", Char.isDigit, [s2l "条"]), (s2l "第", Char.isDigit, [s2l "个"]),
   (s2l "选择第", Char.isDigit, [s2l "条"]),
   (s2l "选择第", Char.isDigit, [s2l "个"]),
   ([], Char.isDigit, [s2l "条"]), ([], Char.isDigit, [s2l "个"])]

/-- `CommandHandler._extract_selection_index` (the later definition, the
    one in effect at class-construction time). -/
def extractSelectionIndex (text : List Char) : Option Nat :=
  match firstConv selPatterns numFromSel text with
  | some v => some v
  | none =>
    if containsSub text (s2l "第一条") || containsSub text (s2l "第一个") ||
        containsSub text (s2l "首选") then some 1
    else if containsSub text (s2l "第二条") || containsSub text (s2l "第二个")
      then some 2
    else if containsSub text (s2l "第三条") || containsSub text (s2l "第三个")
      then some 3
    else if containsSub text (s2l "第四条") || containsSub text (s2l "第四个")
      then some 4
    else if containsSub text (s2l "第五条") || containsSub text (s2l "第五个")
      then some 5
    else none

/-! ### Column-number extraction (the effective, later
`_extract_column_number` definition, whose word-numeral table stops at
二十) -/

def cnColChars : List Char := s2l "一二两三四五六七八九十"

def isCnCol (c : Char) : Bool := cnColChars.contains c

def isCnColOrDigit (c : Char) : Bool := isCnCol c || c.isDigit

def chineseToDigitCol : List (List Char × List Char) :=
  [(s2l "一", s2l "1"), (s2l "二", s2l "2"), (s2l "两", s2l "2"),
   (s2l "三", s2l "3"), (s2l "四", s2l "4"), (s2l "五", s2l "5"),
   (s2l "六", s2l "6"), (s2l "七", s2l "7"), (s2l "八", s2l "8"),
   (s2l "九", s2l "9"), (s2l "十", s2l "10"),
   (s2l "十一", s2l "11"), (s2l "十二", s2l "12"), (s2l "十三", s2l "13"),
   (s2l "十四", s2l "14"), (s2l "十五", s2l "15"), (s2l "十六", s2l "16"),
   (s2l "十七", s2l "17"), (s2l "十八", s2l "18"), (s2l "十九", s2l "19"),
   (s2l "二十", s2l "20")]

/-- Convert a captured column group: table first, digit run verbatim. -/
def colConv (g : List Char) : Option (List Char) :=
  match lookupStr chineseToDigitCol g with
  | some v => some v
  | none => if !g.isEmpty && g.all Char.isDigit then some g else none

/-- `[列柜箱相贵]` tolerant suffix class. -/
def colCabinetSuffixes : List (List Char) :=
  [s2l "列", s2l "柜", s2l "箱", s2l "相", s2l "贵"]

def colPatterns : List PatShape :=
  [(s2l "第", isCnCol, colCabinetSuffixes), ([], isCnCol, colCabinetSuffixes),
   (s2l "第", Char.isDigit, colCabinetSuffixes),
   ([], Char.isDigit, colCabinetSuffixes),
   (s2l "第", isCnCol, [s2l "号"]), ([], isCnCol, [s2l "号"]),
   (s2l "第", Char.isDigit, [s2l "号"]), ([], Char.isDigit, [s2l "号"]),
   (s2l "打开", isCnCol, []), (s2l "打开", Char.isDigit, []),
   (s2l "开", isCnCol, []), (s2l "开", Char.isDigit, []),
   (s2l "第", isCnCol, []), (s2l "第", Char.isDigit, [])]

/-- `CommandHandler._extract_column_number` (the later definition, the one
    in effect; the earlier one, with a table up to 三十, is shadowed). -/
def extractColumnNumber (text0 : List Char) : Option (List Char) :=
  let text :=
    replaceAll (s2l "贵子") (s2l "柜子")
      (replaceAll (s2l "箱子") (s2l "柜子")
        (replaceAll (s2l "相子") (s2l "柜子") text0))
  match firstConv colPatterns colConv text with
  | some v => some v
  | none =>
    match searchGrp [] isCnColOrDigit [] text with
    | some g => colConv g
    | none => none

/-! ### Temperature extraction (`_extract_temperature`) -/

def cnTempChars : List Char := s2l "零一二两三四五六七八九十"

def isCnTemp (c : Char) : Bool := cnTempChars.contains c

def isCnTempOrDigit (c : Char) : Bool := isCnTemp c || c.isDigit

def chineseNumberMapTemp : List (List Char × List Char) :=
  [(s2l "零", s2l "0"), (s2l "一", s2l "1"), (s2l "二", s2l "2"),
   (s2l "两", s2l "2"), (s2l "三", s2l "3"), (s2l "四", s2l "4"),
   (s2l "五", s2l "5"), (s2l "六", s2l "6"), (s2l "七", s2l "7"),
   (s2l "八", s2l "8"), (s2l "九", s2l "9"), (s2l "十", s2l "10"),
   (s2l "十一", s2l "11"), (s2l "十二", s2l "12"), (s2l "十三", s2l "13"),
   (s2l "十四", s2l "14"), (s2l "十五", s2l "15"), (s2l "十六", s2l "16"),
   (s2l "十七", s2l "17"), (s2l "十八", s2l "18"), (s2l "十九", s2l "19"),
   (s2l "二十", s2l "20"), (s2l "二十一", s2l "21"), (s2l "二十二", s2l "22"),
   (s2l "二十三", s2l "23"), (s2l "二十四", s2l "24"), (s2l "二十五", s2l "25"),
   (s2l "二十六", s2l "26"), (s2l "二十七", s2l "27"), (s2l "二十八", s2l "28"),
   (s2l "二十九", s2l "29"), (s2l "三十", s2l "30")]

def tempConv (g : List Char) : Option (List Char) :=
  match lookupStr chineseNumberMapTemp g with
  | some v => some v
  | none => if !g.isEmpty && g.all Char.isDigit then some g else none

def tempPatterns : List PatShape :=
  [([], Char.isDigit, [s2l "度"]), ([], Char.isDigit, [s2l "摄氏度"]),
   ([], Char.isDigit, [s2l "°"]),
   ([], isCnTemp, [s2l "度"]), ([], isCnTemp, [s2l "摄氏度"]),
   ([], isCnTemp, [s2l "°"])]

/-- `CommandHandler._extract_temperature`. -/
def extractTemperature (text : List Char) : Option (List Char) :=
  match firstConv tempPatterns tempConv text with
  | some v => some v
  | none =>
    match searchGrp [] isCnTempOrDigit [] text with
    | some g => tempConv g
    | none => none

/-! ### A small regex evaluator

The archive-query patterns use constructs (optional groups, `\s*`, lazy
`(.+?)` captures, `\b`, bounded repetition) beyond the simple shapes
above, so they are embedded through a token-list evaluator with Python
`re` semantics: positions are scanned left to right, alternatives are
tried in priority order, greedy runs prefer longer and lazy runs prefer
shorter, and at most one capturing group per pattern is recorded.
Recursion is fuelled; one fuel unit is spent per evaluator step and the
supplied fuel strictly exceeds the depth of any evaluation path, so the
fuel never runs out on the texts evaluated here. -/

inductive CharCls
  | chars (cs : List Char)
  | digit
  | word
  | nonWs
  | anyNoNl
  | asciiAlnum
  | asciiAlpha
  | charsOrDigit (cs : List Char)

def evalCls : CharCls → Char → Bool
  | .chars cs, c => cs.contains c
  | .digit, c => c.isDigit
  | .word, c => isWordLike c
  | .nonWs, c => !isWs c
  | .anyNoNl, c => c != '\n'
  | .asciiAlnum, c => c.isAlphanum
  | .asciiAlpha, c => c.isAlpha
  | .charsOrDigit cs, c => cs.contains c || c.isDigit

inductive Tok
  /-- a literal string -/
  | lit (s : List Char)
  /-- `cl{min,}`, greedy or lazy, optionally the capturing group;
      `taken` accumulates the consumed characters (starts empty) -/
  | run (cl : CharCls) (minLeft : Nat) (lazyRep : Bool) (cap : Bool)
      (taken : List Char)
  /-- `cl{n}` exactly -/
  | rep (cl : CharCls) (n : Nat)
  /-- `\b` -/
  | wb

def isWordCh (c : Char) : Bool := isWordLike c

/-- `\b`: a word/non-word transition (ends of the text are non-word). -/
def boundaryOk (prev : Option Char) (s : List Char) : Bool :=
  let pw := match prev with | some c => isWordCh c | none => false
  let nw := match s with | c :: _ => isWordCh c | [] => false
  pw != nw

def lastCharOr (w : List Char) (prev : Option Char) : Option Char :=
  match w.reverse with
  | c :: _ => some c
  | [] => prev

/-- One anchored match attempt: `toks` against `s`, `prev` the character
    before the anchor, `acc` the group captured so far.  Returns
    `some acc'` on the first success in backtracking priority order. -/
def matchVariant : Nat → Option Char → Option (List Char) → List Tok →
    List Char → Option (Option (List Char))
  | 0, _, _, _, _ => none
  | _ + 1, _, acc, [], _ => some acc
  | fuel + 1, prev, acc, .lit w :: rest, s =>
    if w.isPrefixOf s then
      matchVariant fuel (lastCharOr w prev) acc rest (s.drop w.length)
    else none
  | fuel + 1, prev, acc, .wb :: rest, s =>
    if boundaryOk prev s then matchVariant fuel prev acc rest s else none
  | fuel + 1, prev, acc, .rep cl n :: rest, s =>
    match n with
    | 0 => matchVariant fuel prev acc rest s
    | m + 1 =>
      match s with
      | c :: t =>
        if evalCls cl c then
          matchVariant fuel (some c) acc (.rep cl m :: rest) t
        else none
      | [] => none
  | fuel + 1, prev, acc, .run cl minLeft lz cap taken :: rest, s =>
    match minLeft with
    | m + 1 =>
      match s with
      | c :: t =>
        if evalCls cl c then
          matchVariant fuel (some c) acc
            (.run cl m lz cap (c :: taken) :: rest) t
        else none
      | [] => none
    | 0 =>
      let stopAcc := if cap then some taken.reverse else acc
      if lz then
        match matchVariant fuel prev stopAcc rest s with
        | some r => some r
        | none =>
          match s with
          | c :: t =>
            if evalCls cl c then
              matchVariant fuel (some c) acc
                (.run cl 0 lz cap (c :: taken) :: rest) t
            else none
          | [] => none
      else
        match s with
        | c :: t =>
          if evalCls cl c then
            match matchVariant fuel (some c) acc
                (.run cl 0 lz cap (c :: taken) :: rest) t with
            | some r => some r
            | none => matchVariant fuel prev stopAcc rest s
          else matchVariant fuel prev stopAcc rest s
        | [] => matchVariant fuel prev stopAcc rest s

/-- Fuel strictly dominating the depth of any evaluation path. -/
def tokFuel (toks : List Tok) (s : List Char) : Nat :=
  4 * (toks.length + s.length) + 16

/-- Try each expanded alternative of a pattern, in priority order, at one
    anchor position. -/
def tryVariantsAt (vars : List (List Tok)) (prev : Option Char)
    (s : List Char) : Option (Option (List Char)) :=
  match vars with
  | [] => none
  | v :: vt =>
    match matchVariant (tokFuel v s) prev none v s with
    | some r => some r
    | none => tryVariantsAt vt prev s

/-- `re.search`: anchor positions are scanned left to right. -/
def searchPat (vars : List (List Tok)) : Option Char → List Char →
    Option (Option (List Char))
  | prev, s =>
    match tryVariantsAt vars prev s with
    | some r => some r
    | none =>
      match s with
      | [] => none
      | c :: t => searchPat vars (some c) t

def reSearchFound (vars : List (List Tok)) (s : List Char) : Bool :=
  (searchPat vars none s).isSome

def reGroup1 (vars : List (List Tok)) (s : List Char) :
    Option (List Char) :=
  match searchPat vars none s with
  | some (some g) => some g
  | _ => none

/-! Pattern-building helpers. -/

def tkL (s : String) : Tok := .lit (s2l s)

def wsChars : List Char := [' ', '\t', '\n', '\r', '\x0b', '\x0c', '　']

/-- `\s*` -/
def tkWs : Tok := .run (.chars wsChars) 0 false false []

/-- `(.+?)` -/
def tkLazyCap : Tok := .run .anyNoNl 1 true true []

/-- `(.+)` -/
def tkGreedyCap : Tok := .run .anyNoNl 1 false true []

/-- `.*?` (not capturing) -/
def tkLazyAny : Tok := .run .anyNoNl 0 true false []

/-- `(\w+)` -/
def tkWordCap : Tok := .run .word 1 false true []

/-- `(\S+)` -/
def tkNonWsCap : Tok := .run .nonWs 1 false true []

/-- Expand a sequence of segments, each offering ordered alternatives,
    into the ordered list of alternative token sequences (regex
    backtracking order: leftmost choice point most significant). -/
def seqAlts : List (List (List Tok)) → List (List Tok)
  | [] => [[]]
  | seg :: rest =>
    (seg.map (fun choice => (seqAlts rest).map (fun rv => choice ++ rv))).flatten

/-- A mandatory segment. -/
def seg1 (ts : List Tok) : List (List Tok) := [ts]

/-- An optional segment (`X?`, greedy: with `X` first). -/
def segOpt (ts : List Tok) : List (List Tok) := [ts, []]

/-- `[:：]?` -/
def segColon : List (List Tok) := [[tkL ":"], [tkL "："], []]

/-! ### Archive-query detection (`_is_archive_query_by_name`) -/

def archivePatterns : List (List (List Tok)) :=
  [ -- 查\s*(?:询)?\s*(?:一下)?\s*档案名称为\s*(.+?)\s*的\s*(?:档案)?
   seqAlts [seg1 [tkL "查", tkWs], segOpt [tkL "询"], seg1 [tkWs],
     segOpt [tkL "一下"], seg1 [tkWs, tkL "档案名称为", tkWs, tkLazyCap,
       tkWs, tkL "的", tkWs], segOpt [tkL "档案"]],
   -- 查\s*(?:询|找)?\s*(?:一下)?\s*(.+?)\s*的\s*档案
   seqAlts [seg1 [tkL "查", tkWs], [[tkL "询"], [tkL "找"], []],
     seg1 [tkWs], segOpt [tkL "一下"],
     seg1 [tkWs, tkLazyCap, tkWs, tkL "的", tkWs, tkL "档案"]],
   -- 我\s*(?:想|想要|要)\s*查\s*(?:询|找)?\s*(?:一下)?\s*(.+?)\s*的\s*档案
   seqAlts [seg1 [tkL "我", tkWs], [[tkL "想"], [tkL "想要"], [tkL "要"]],
     seg1 [tkWs, tkL "查", tkWs], [[tkL "询"], [tkL "找"], []],
     seg1 [tkWs], segOpt [tkL "一下"],
     seg1 [tkWs, tkLazyCap, tkWs, tkL "的", tkWs, tkL "档案"]],
   -- 查\s*(.+?)\s*的?\s*信息
   seqAlts [seg1 [tkL "查", tkWs, tkLazyCap, tkWs], segOpt [tkL "的"],
     seg1 [tkWs, tkL "信息"]],
   -- 查\s*(.+?)\s*的?\s*资料
   seqAlts [seg1 [tkL "查", tkWs, tkLazyCap, tkWs], segOpt [tkL "的"],
     seg1 [tkWs, tkL "资料"]],
   -- 找\s*(.+?)\s*的?\s*档案
   seqAlts [seg1 [tkL "找", tkWs, tkLazyCap, tkWs], segOpt [tkL "的"],
     seg1 [tkWs, tkL "档案"]],
   -- 搜索\s*(.+?)\s*的?\s*档案
   seqAlts [seg1 [tkL "搜索", tkWs, tkLazyCap, tkWs], segOpt [tkL "的"],
     seg1 [tkWs, tkL "档案"]],
   -- 显示\s*(.+?)\s*的?\s*信息
   seqAlts [seg1 [tkL "显示", tkWs, tkLazyCap, tkWs], segOpt [tkL "的"],
     seg1 [tkWs, tkL "信息"]],
   -- 显示\s*(.+?)\s*的?\s*档案
   seqAlts [seg1 [tkL "显示", tkWs, tkLazyCap, tkWs], segOpt [tkL "的"],
     seg1 [tkWs, tkL "档案"]],
   -- 查看\s*(.+?)\s*的?\s*档案
   seqAlts [seg1 [tkL "查看", tkWs, tkLazyCap, tkWs], segOpt [tkL "的"],
     seg1 [tkWs, tkL "档案"]],
   -- 查询\s*(.+?)\s*的?\s*档案
   seqAlts [seg1 [tkL "查询", tkWs, tkLazyCap, tkWs], segOpt [tkL "的"],
     seg1 [tkWs, tkL "档案"]],
   -- 查找\s*(.+?)\s*的?\s*档案
   seqAlts [seg1 [tkL "查找", tkWs, tkLazyCap, tkWs], segOpt [tkL "的"],
     seg1 [tkWs, tkL "档案"]],
   -- 查\s*(?:询)?\s*(?:一下)?\s*档案编号为\s*(.+?)\s*的\s*(?:档案)?
   seqAlts [seg1 [tkL "查", tkWs], segOpt [tkL "询"], seg1 [tkWs],
     segOpt [tkL "一下"], seg1 [tkWs, tkL "档案编号为", tkWs, tkLazyCap,
       tkWs, tkL "的", tkWs], segOpt [tkL "档案"]],
   -- 查\s*(?:询|找)?\s*(?:一下)?\s*编号\s*(.+?)\s*的\s*档案
   seqAlts [seg1 [tkL "查", tkWs], [[tkL "询"], [tkL "找"], []],
     seg1 [tkWs], segOpt [tkL "一下"],
     seg1 [tkWs, tkL "编号", tkWs, tkLazyCap, tkWs, tkL "的", tkWs,
       tkL "档案"]],
   -- 查\s*(?:询|找)?\s*(?:一下)?\s*编号\s*[:：]?\s*(.+?)\s*(?:的档案)?
   seqAlts [seg1 [tkL "查", tkWs], [[tkL "询"], [tkL "找"], []],
     seg1 [tkWs], segOpt [tkL "一下"], seg1 [tkWs, tkL "编号", tkWs],
     segColon, seg1 [tkWs, tkLazyCap, tkWs], segOpt [tkL "的档案"]],
   -- 编号\s*(.+?)\s*的\s*档案
   seqAlts [seg1 [tkL "编号", tkWs, tkLazyCap, tkWs, tkL "的", tkWs,
     tkL "档案"]],
   -- 编号\s*[:：]?\s*(.+?)\s*的档案
   seqAlts [seg1 [tkL "编号", tkWs], segColon,
     seg1 [tkWs, tkLazyCap, tkWs, tkL "的档案"]]]

def archiveKeywords : List (List Char) :=
  [s2l "查询", s2l "查找", s2l "搜索", s2l "查一下", s2l "找一下",
   s2l "查", s2l "显示", s2l "查看"]

def infoKeywords : List (List Char) :=
  [s2l "档案", s2l "信息", s2l "资料", s2l "记录"]

/-- `编号\s*[:：]?\s*(\S+)` -/
def codeSearchPat : List (List Tok) :=
  seqAlts [seg1 [tkL "编号", tkWs], segColon, seg1 [tkWs, tkNonWsCap]]

/-- `查[询找]?(.+?)(?:的?[档案信息资料])` -/
def nameSearchPat : List (List Tok) :=
  seqAlts [seg1 [tkL "查"], [[tkL "询"], [tkL "找"], []], seg1 [tkLazyCap],
    segOpt [tkL "的"], seg1 [Tok.rep (.chars (s2l "档案信息资料")) 1]]

/-- The record-code formats (`[A-Za-z0-9]+[-_][A-Za-z0-9]+`,
    `[A-Za-z]{2,}\d+`, `\d{4}[-_]\d{3}`). -/
def codeFormats : List (List (List Tok)) :=
  [[[Tok.run .asciiAlnum 1 false false [],
     Tok.rep (.chars [Char.ofNat 45, '_']) 1,
     Tok.run .asciiAlnum 1 false false []]],
   [[Tok.run .asciiAlpha 2 false false [], Tok.run .digit 1 false false []]],
   [[Tok.rep .digit 4, Tok.rep (.chars [Char.ofNat 45, '_']) 1,
     Tok.rep .digit 3]]]

/-- `CommandHandler._is_archive_query_by_name` (`text` is the cleaned
    turn text forwarded by `process_command`; the function re-cleans it
    for its keyword checks, exactly as the source does). -/
def isArchiveQueryByName (text : List Char) : Bool :=
  if text = [] then false else
  let cleaned := cleanText text
  if archivePatterns.any (fun p => reSearchFound p text) then true
  else if anyIn cleaned archiveKeywords && anyIn cleaned infoKeywords &&
      (reSearchFound codeSearchPat cleaned ||
        (match reGroup1 nameSearchPat cleaned with
         | some g =>
           let name := trimWs g
           !name.isEmpty && name.length ≥ 2
         | none => false)) then true
  else if (containsSub cleaned (s2l "查询") || containsSub cleaned (s2l "查"))
      && codeFormats.any (fun p => reSearchFound p cleaned) then true
  else
    anyIn cleaned archiveKeywords && cleaned.length ≤ 15 &&
      archiveKeywords.any (fun k =>
        containsSub cleaned k &&
          (let qv := trimWs (removeAll k cleaned)
           !qv.isEmpty && qv.length ≥ 2))

/-! ### Archive-query value extraction (`_extract_archive_query_value`) -/

/-- Maximal digit runs of a text (`re.findall(r'\d+', s)`). -/
def digitRunsGo (cur : List Char) : List Char → List (List Char)
  | [] => if cur.isEmpty then [] else [cur.reverse]
  | c :: t =>
    if c.isDigit then digitRunsGo (c :: cur) t
    else if cur.isEmpty then digitRunsGo [] t
    else cur.reverse :: digitRunsGo [] t

def digitRuns (l : List Char) : List (List Char) := digitRunsGo [] l

/-- `re.findall(r'\b(\d{3,})\b', s)`: maximal digit runs of length at
    least 3 whose neighbours (if any) are non-word characters. -/
def digitRunsBndGo (leftOk : Bool) (cur : List Char) :
    List Char → List (List Char)
  | [] =>
    if !cur.isEmpty && leftOk && cur.length ≥ 3 then [cur.reverse] else []
  | c :: t =>
    if c.isDigit then digitRunsBndGo leftOk (c :: cur) t
    else
      (if !cur.isEmpty && leftOk && cur.length ≥ 3 && !isWordCh c then
        [cur.reverse] else []) ++ digitRunsBndGo (!isWordCh c) [] t

def digitRunsBnd (l : List Char) : List (List Char) :=
  digitRunsBndGo true [] l

/-- Python `max(xs, key=len)`: the first longest element. -/
def firstLongest (ls : List (List Char)) : Option (List Char) :=
  ls.foldl
    (fun acc r =>
      match acc with
      | none => some r
      | some b => if r.length > b.length then some r else acc)
    none

/-- `re.sub(r'[档案呃干为。，、]', '', code)`. -/
def junkChars : List Char := s2l "档案呃干为。，、"

def stripJunk (l : List Char) : List Char :=
  l.filter (fun c => !junkChars.contains c)

def codePatterns : List (List (List Tok)) :=
  [ -- 档案编号为\s*(.+?)\s*的
   seqAlts [seg1 [tkL "档案编号为", tkWs, tkLazyCap, tkWs, tkL "的"]],
   -- 编号为\s*(.+?)\s*的档案
   seqAlts [seg1 [tkL "编号为", tkWs, tkLazyCap, tkWs, tkL "的档案"]],
   -- 编号\s*(.+?)\s*的档案
   seqAlts [seg1 [tkL "编号", tkWs, tkLazyCap, tkWs, tkL "的档案"]],
   -- 编号\s*[:：]?\s*(.+?)\s*的档案
   seqAlts [seg1 [tkL "编号", tkWs], segColon,
     seg1 [tkWs, tkLazyCap, tkWs, tkL "的档案"]],
   -- 查.*?编号\s*[:：]?\s*(.+)
   seqAlts [seg1 [tkL "查", tkLazyAny, tkL "编号", tkWs], segColon,
     seg1 [tkWs, tkGreedyCap]],
   -- 编号为\s*(\w+)\s*档案
   seqAlts [seg1 [tkL "编号为", tkWs, tkWordCap, tkWs, tkL "档案"]],
   -- 编号\s*为\s*(\w+)
   seqAlts [seg1 [tkL "编号", tkWs, tkL "为", tkWs, tkWordCap]],
   -- 编号\s*(\w+)
   seqAlts [seg1 [tkL "编号", tkWs, tkWordCap]]]

/-- The per-match post-processing of the code-pattern loop: strip, junk
    removal, then the first longest embedded digit run, else the cleaned
    code itself (possibly empty, which the caller treats as falsy). -/
def firstCodePattern : List (List (List Tok)) → List Char →
    Option (List Char)
  | [], _ => none
  | p :: rest, raw =>
    match reGroup1 p raw with
    | some g =>
      let code := trimWs g
      if !code.isEmpty then
        let code2 := stripJunk code
        match firstLongest (digitRuns code2) with
        | some n => some n
        | none => some code2
      else firstCodePattern rest raw
    | none => firstCodePattern rest raw

def namePatterns : List (List (List Tok)) :=
  [ -- 档案名称为\s*(.+?)\s*的
   seqAlts [seg1 [tkL "档案名称为", tkWs, tkLazyCap, tkWs, tkL "的"]],
   -- 查\s*(?:询|找)?\s*(?:一下)?\s*(.+?)\s*的\s*档案
   seqAlts [seg1 [tkL "查", tkWs], [[tkL "询"], [tkL "找"], []],
     seg1 [tkWs], segOpt [tkL "一下"],
     seg1 [tkWs, tkLazyCap, tkWs, tkL "的", tkWs, tkL "档案"]],
   -- 我\s*(?:想|想要|要)\s*查\s*(?:询|找)?\s*(?:一下)?\s*(.+?)\s*的\s*档案
   seqAlts [seg1 [tkL "我", tkWs], [[tkL "想"], [tkL "想要"], [tkL "要"]],
     seg1 [tkWs, tkL "查", tkWs], [[tkL "询"], [tkL "找"], []],
     seg1 [tkWs], segOpt [tkL "一下"],
     seg1 [tkWs, tkLazyCap, tkWs, tkL "的", tkWs, tkL "档案"]],
   -- 查\s*(.+?)\s*的?\s*(?:信息|资料|档案)
   seqAlts [seg1 [tkL "查", tkWs, tkLazyCap, tkWs], segOpt [tkL "的"],
     seg1 [tkWs], [[tkL "信息"], [tkL "资料"], [tkL "档案"]]]]

def firstNamePattern : List (List (List Tok)) → List Char →
    Option (List Char)
  | [], _ => none
  | p :: rest, raw =>
    match reGroup1 p raw with
    | some g =>
      let name := trimWs g
      if !name.isEmpty then
        let name2 := stripJunk name
        if !name2.isEmpty && name2.length ≥ 2 then some name2
        else firstNamePattern rest raw
      else firstNamePattern rest raw
    | none => firstNamePattern rest raw

def queryPrefixes : List (List Char) :=
  [s2l "查询", s2l "查一下", s2l "查找", s2l "搜索", s2l "查", s2l "找",
   s2l "编号", s2l "档案编号"]

def querySuffixes : List (List Char) :=
  [s2l "的档案", s2l "档案", s2l "的信息", s2l "的资料", s2l "为",
   s2l "呃", s2l "干"]

/-- Remove the first matching query prefix (the loop breaks after one). -/
def stripQueryPre (l : List Char) : List Char :=
  match queryPrefixes.find? (fun p => p.isPrefixOf l) with
  | some p => l.drop p.length
  | none => l

/-- Remove query suffixes, each checked once in list order (no break). -/
def stripQuerySuf (l : List Char) : List Char :=
  querySuffixes.foldl
    (fun acc s =>
      if s.isSuffixOf acc then acc.take (acc.length - s.length) else acc)
    l

/-- `CommandHandler._extract_archive_query_value`; `raw` is the original
    utterance (`text_with_spaces`), `cleaned2` the handler's re-cleaned
    text. -/
def extractArchiveQueryValue (raw cleaned2 : List Char) :
    Option (List Char) :=
  match firstCodePattern codePatterns raw with
  | some v => some v
  | none =>
    match firstLongest (digitRunsBnd raw) with
    | some v => some v
    | none =>
      match firstLongest (digitRuns raw) with
      | some v => some v
      | none =>
        match firstNamePattern namePatterns raw with
        | some v => some v
        | none =>
          let remaining := trimWs (stripQuerySuf (stripQueryPre cleaned2))
          if !remaining.isEmpty then
            match firstLongest (digitRuns remaining) with
            | some v => some v
            | none => some remaining
          else none

/-! ### Explicit device-control detection (the effective, later
`_is_explicit_device_control` definition) -/

/-- `[一二两三四五六七八九十\d]+` -/
def tkNumRun : Tok := .run (.charsOrDigit cnColChars) 1 false false []

/-- `\d+` (not capturing) -/
def tkDigitRun : Tok := .run .digit 1 false false []

/-- A pattern that is a plain literal. -/
def litPat (s : String) : List (List Tok) := [[tkL s]]

def explicitDevicePatterns : List (List (List Tok)) :=
  [ -- 打开第?[一二两三四五六七八九十\d]+列?柜子
   seqAlts [seg1 [tkL "打开"], segOpt [tkL "第"], seg1 [tkNumRun],
     segOpt [tkL "列"], seg1 [tkL "柜子"]],
   litPat "打开柜子", litPat "开启柜子", litPat "启动柜子",
   -- 打开第?[一二两三四五六七八九十\d]+列?
   seqAlts [seg1 [tkL "打开"], segOpt [tkL "第"], seg1 [tkNumRun],
     segOpt [tkL "列"]],
   -- 打开第?[一二两三四五六七八九十\d]+
   seqAlts [seg1 [tkL "打开"], segOpt [tkL "第"], seg1 [tkNumRun]],
   -- 关闭第?[一二两三四五六七八九十\d]+列?柜子
   seqAlts [seg1 [tkL "关闭"], segOpt [tkL "第"], seg1 [tkNumRun],
     segOpt [tkL "列"], seg1 [tkL "柜子"]],
   litPat "关闭柜子", litPat "关柜子", litPat "关掉柜子",
   litPat "打开通风", litPat "开启通风", litPat "关闭通风", litPat "关通风",
   -- 打开?空调 / 关闭?空调
   seqAlts [seg1 [tkL "打"], segOpt [tkL "开"], seg1 [tkL "空调"]],
   seqAlts [seg1 [tkL "关"], segOpt [tkL "闭"], seg1 [tkL "空调"]],
   litPat "空调开机", litPat "空调关机", litPat "空调制冷",
   litPat "空调制热", litPat "空调除湿",
   [[tkL "制冷", tkDigitRun, tkL "度"]],
   [[tkL "制热", tkDigitRun, tkL "度"]],
   [[tkL "除湿", tkDigitRun, tkL "度"]],
   [[tkL "空调调到", tkDigitRun, tkL "度"]],
   [[tkL "空调设置为", tkDigitRun, tkL "度"]],
   -- 打开?加湿器 / 关闭?加湿器
   seqAlts [seg1 [tkL "打"], segOpt [tkL "开"], seg1 [tkL "加湿器"]],
   seqAlts [seg1 [tkL "关"], segOpt [tkL "闭"], seg1 [tkL "加湿器"]],
   litPat "加湿器开机", litPat "加湿器关机",
   litPat "开启除湿", litPat "关闭除湿", litPat "开启净化",
   litPat "关闭净化", litPat "开启加湿", litPat "关闭加湿",
   litPat "打开一体机", litPat "关闭一体机",
   litPat "打开温湿度一体机", litPat "关闭温湿度一体机",
   litPat "打开温度一体机", litPat "关闭温度一体机",
   litPat "打开湿度一体机", litPat "关闭湿度一体机",
   -- 关闭?除鼠器
   seqAlts [seg1 [tkL "关"], segOpt [tkL "闭"], seg1 [tkL "除鼠器"]],
   litPat "除鼠器关闭", litPat "除鼠器低频", litPat "除鼠器高频",
   litPat "打开除鼠器", litPat "打开除鼠设备", litPat "打开驱鼠设备",
   litPat "低频模式", litPat "高频模式", litPat "总开关关闭",
   -- 关闭?出除数 / 关闭?出鼠器
   seqAlts [seg1 [tkL "关"], segOpt [tkL "闭"], seg1 [tkL "出除数"]],
   seqAlts [seg1 [tkL "关"], segOpt [tkL "闭"], seg1 [tkL "出鼠器"]],
   litPat "打开出除数", litPat "打开出鼠器", litPat "打开楚楚",
   litPat "除鼠设备", litPat "驱鼠设备",
   litPat "高品模式", litPat "高平模式", litPat "低品模式", litPat "低平模式",
   [[tkL "温度调到", tkNumRun, tkL "度"]],
   [[tkL "温度设置为", tkNumRun, tkL "度"]],
   [[tkL "调节温度到", tkNumRun, tkL "度"]],
   litPat "查询状态", litPat "查看状态", litPat "状态查询", litPat "状态查看"]

/-- `CommandHandler._is_explicit_device_control` (the later definition,
    the one in effect; an earlier, smaller definition is shadowed). -/
def isExplicitDeviceControl (text : List Char) : Bool :=
  if text = [] then false else
  explicitDevicePatterns.any (fun p => reSearchFound p text)

/-! ### Conversation state, events and responses -/

structure ConvState where
  currentContext : Option (List Char)
  expectingSelection : Bool
  waitingForTemperature : Bool
  waitingForColumn : Bool
  pendingAction : Option (List Char)
  pendingContext : Option (List Char)
deriving DecidableEq

/-- `reset_conversation_state` (the `last_query_*` and
    `available_options` fields, which no classifier or dispatcher branch
    reads, are not tracked). -/
def resetConvState : ConvState :=
  { currentContext := none, expectingSelection := false,
    waitingForTemperature := false, waitingForColumn := false,
    pendingAction := none, pendingContext := none }

/-- The handler object's own mutable fields that the turn pipeline
    reads or writes. -/
structure HState where
  chatMode : Bool
  isExited : Bool
  conv : ConvState
deriving DecidableEq

def initialHState : HState :=
  { chatMode := false, isExited := false, conv := resetConvState }

/-- Messages sent through `send_websocket_message`.  The four device
    channels that no claim touches (dehumidifier, air-conditioner,
    rodent repeller, ventilation, status query) are collapsed into
    `otherDevice`; in the source their handlers touch no conversation
    state. -/
inductive DevEvent
  | openCabinet (colNo : List Char)
  | closeCabinet
  | selectRecord (index : Int)
  | queryRecord (name : List Char)
  | thermo (action : List Char) (temperature : List Char)
  | aiResponse
  | otherDevice
deriving DecidableEq

/-- The response of a turn.  Randomised template families (greetings,
    farewells, archive-query acknowledgements), LLM replies, and the
    abstracted device-channel replies are markers; fixed strings are
    kept verbatim.  Python `None` is the `none` of `Option Resp`. -/
inductive Resp
  | text (s : List Char)
  | greeting
  | farewell
  | querying
  | llm
  | device
deriving DecidableEq

structure TurnResult where
  response : Option Resp
  events : List DevEvent
  state : HState
deriving DecidableEq

/-! ### The dispatch handlers -/

/-- Decimal digits of `n` (Python `str(n)` for a natural number). -/
def natStr (n : Nat) : List Char := Nat.toDigits 10 n

/-- The looser containment chain `_handle_selection` falls back to when
    `_extract_selection_index` failed. -/
def looseSelection (text : List Char) : Option Nat :=
  if containsSub text (s2l "二") || containsSub text (s2l "两") then some 2
  else if containsSub text (s2l "三") then some 3
  else if containsSub text (s2l "四") then some 4
  else if containsSub text (s2l "五") then some 5
  else if containsSub text (s2l "六") then some 6
  else if containsSub text (s2l "七") then some 7
  else if containsSub text (s2l "八") then some 8
  else if containsSub text (s2l "九") then some 9
  else if containsSub text (s2l "十") then some 10
  else if containsSub text (s2l "第一条") || containsSub text (s2l "第一个")
      || containsSub text (s2l "首选") then some 1
  else none

/-- `_handle_selection`: the emitted `select_record` index is the spoken
    1-based index minus one, with no lower bound. -/
def handleSelection (sendOk : Bool) (st : HState) (text : List Char) :
    TurnResult :=
  let send (st1 : HState) (i : Nat) : TurnResult :=
    if sendOk then
      { response := some (.text
          (s2l "好的，已选择第" ++ natStr i ++ s2l "条记录")),
        events := [.selectRecord ((i : Int) - 1)],
        state :=
          { st1 with conv :=
              { st1.conv with expectingSelection := false } } }
    else
      { response := some (.text (s2l "选择命令发送失败，请稍后重试")),
        events := [], state := st1 }
  match extractSelectionIndex text with
  | some i => send st i
  | none =>
    let st1 :=
      { st with conv := { st.conv with expectingSelection := false } }
    match looseSelection text with
    | some i => send st1 i
    | none =>
      { response := some (.text
          (s2l "请告诉我您要选择第几条？例如：第一条、第二个，或者直接说数字")),
        events := [], state := st1 }

/-- `_handle_column_input`.  Note: on the successful open path the source
    sends the event and then falls off the end of the function, so the
    turn's response is Python `None`. -/
def handleColumnInput (sendOk : Bool) (st : HState) (text : List Char) :
    TurnResult :=
  let cleared :=
    { st with conv :=
        { st.conv with
            waitingForColumn := false,
            pendingAction := none,
            pendingContext := none } }
  if st.conv.pendingAction.getD (s2l "open") == s2l "close" then
    if sendOk then
      { response := some (.text (s2l "好的，正在为您关闭所有档案柜")),
        events := [.closeCabinet], state := cleared }
    else
      { response := some (.text (s2l "关闭命令发送失败")), events := [],
        state := cleared }
  else
    match extractColumnNumber text with
    | some c =>
      if sendOk then
        { response := none, events := [.openCabinet c], state := cleared }
      else { response := none, events := [], state := cleared }
    | none =>
      { response := some (.text
          (s2l "抱歉，我没有听清楚列号。请告诉我您要打开哪一列柜子？例如：第三列、3列")),
        events := [], state := st }

def cabinetCloseKeywords : List (List Char) :=
  [s2l "关闭", s2l "关", s2l "关掉", s2l "关上", s2l "关毕", s2l "完毕"]

/-- `_handle_cabinet_control_websocket`: close needs no column and closes
    all cabinets; open requires a column and otherwise records the
    pending action and waits. -/
def handleCabinetControl (sendOk : Bool) (st : HState) (text : List Char) :
    TurnResult :=
  let lower := toLowerAscii text
  if anyIn lower cabinetCloseKeywords then
    if sendOk then
      { response := some (.text (s2l "好的，正在为您关闭所有档案柜")),
        events := [.closeCabinet], state := st }
    else
      { response := some (.text (s2l "关闭命令发送失败，请稍后重试")),
        events := [], state := st }
  else
    match extractColumnNumber text with
    | none =>
      { response := some (.text
          (s2l "请问您要打开哪一列柜子？例如：第三列、3列")),
        events := [],
        state :=
          { st with conv :=
              { st.conv with
                  waitingForColumn := true,
                  pendingAction := some (s2l "open"),
                  pendingContext := some (s2l "cabinet_control") } } }
    | some c =>
      if sendOk then
        { response := some (.text
            (s2l "好的，正在为您打开第" ++ c ++ s2l "列柜子")),
          events := [.openCabinet c], state := st }
      else
        { response := some (.text (s2l "打开命令发送失败，请稍后重试")),
          events := [], state := st }

def tempIncWords : List (List Char) :=
  [s2l "提高", s2l "升温", s2l "调高", s2l "热"]

def tempDecWords : List (List Char) :=
  [s2l "降低", s2l "降温", s2l "调低", s2l "冷"]

/-- `_handle_temperature_control_websocket`: a missing numeral records
    the pending direction and sets `waiting_for_temperature`. -/
def handleTemperatureControl (sendOk : Bool) (st : HState)
    (text : List Char) : TurnResult :=
  let lower := toLowerAscii text
  let temp := extractTemperature text
  let waitState (act : String) : HState :=
    { st with conv :=
        { st.conv with
            waitingForTemperature := true,
            pendingAction := some (s2l act),
            pendingContext := some (s2l "temperature") } }
  let sendTemp (act : String) (v okMsg : List Char) : TurnResult :=
    if sendOk then
      { response := some (.text okMsg),
        events := [.thermo (s2l act) v], state := st }
    else
      { response := some (.text (s2l "温湿度控制命令发送失败")),
        events := [], state := st }
  if anyIn lower tempIncWords then
    match temp with
    | none =>
      { response := some (.text
          (s2l "请问您希望升高多少度呢？可以说数字或中文数字，比如：5度、五度")),
        events := [], state := waitState "increase" }
    | some v =>
      sendTemp "increase" v (s2l "好的，正在为您升高温度" ++ v ++ s2l "度")
  else if anyIn lower tempDecWords then
    match temp with
    | none =>
      { response := some (.text
          (s2l "请问您希望降低多少度呢？可以说数字或中文数字，比如：5度、五度")),
        events := [], state := waitState "decrease" }
    | some v =>
      sendTemp "decrease" v (s2l "好的，正在为您降低温度" ++ v ++ s2l "度")
  else
    match temp with
    | none =>
      { response := some (.text
          (s2l "请问您要调节到多少度呢？可以说数字或中文数字，比如：25度、二十五度")),
        events := [], state := waitState "set" }
    | some v =>
      sendTemp "set" v (s2l "好的，正在为您调节温度到" ++ v ++ s2l "度")

def archAskMsg : List Char :=
  s2l "请告诉我您要查询什么档案？例如：查询张三的档案，或者查询编号2024-001的档案"

/-- `_handle_archive_query_by_name_websocket`: on success the query event
    is emitted and `expecting_selection` is set — with no pending
    action.  `text` is the cleaned turn text, `original` the raw
    utterance (the source's `text_with_spaces`). -/
def handleArchiveQuery (sendOk : Bool) (st : HState)
    (text original : List Char) : TurnResult :=
  match extractArchiveQueryValue original (cleanText text) with
  | none => { response := some (.text archAskMsg), events := [], state := st }
  | some v =>
    if v.isEmpty then
      { response := some (.text archAskMsg), events := [], state := st }
    else if sendOk then
      { response := some .querying, events := [.queryRecord v],
        state :=
          { st with conv :=
              { st.conv with
                  currentContext := some (s2l "archive_query"),
                  expectingSelection := true } } }
    else
      { response := some (.text (s2l "查询请求发送失败，请稍后重试")),
        events := [], state := st }

/-- Abstraction of the four state-free device handlers. -/
def otherDeviceResult (st : HState) : TurnResult :=
  { response := some .device, events := [.otherDevice], state := st }

def dehumidifierTriggers : List (List Char) :=
  [s2l "加湿器", s2l "除湿", s2l "净化", s2l "加湿"]

def airTriggers : List (List Char) :=
  [s2l "空调", s2l "制冷", s2l "制热"]

def rodentTriggers : List (List Char) :=
  [s2l "除鼠器", s2l "驱鼠器", s2l "除鼠", s2l "驱鼠", s2l "老鼠"]

def temperatureTriggerKeywords : List (List Char) :=
  [s2l "温度", s2l "湿度", s2l "调节", s2l "设置", s2l "度", s2l "调到",
   s2l "调制", s2l "调至"]

def ventilationTriggers : List (List Char) :=
  [s2l "通风", s2l "换气"]

def cabinetTriggers : List (List Char) :=
  [s2l "柜子", s2l "档案柜", s2l "相子", s2l "箱子", s2l "贵子", s2l "柜了"]

def statusTriggers : List (List Char) :=
  [s2l "状态", s2l "查看", s2l "监控"]

/-- `_handle_device_control_websocket` (the per-target dispatch; the
    bare open/close branch also sends an `ai_response` message). -/
def handleDeviceControl (sendOk : Bool) (st : HState) (text : List Char) :
    TurnResult :=
  let lower := toLowerAscii text
  if text == s2l "打开" || text == s2l "开启" || text == s2l "启动" then
    { response := some (.text
        (s2l "哎~ 您想打开什么设备呢？可以说打开加湿器，打开空调，打开第几列柜子，或者打开通风系统~")),
      events := [.aiResponse], state := st }
  else if text == s2l "关闭" || text == s2l "关" || text == s2l "关掉" ||
      text == s2l "停止" then
    { response := some (.text
        (s2l "哎~ 您想关闭什么设备呢？可以说关闭加湿器，关闭空调，关闭第几列柜子，或者关闭通风系统~")),
      events := [.aiResponse], state := st }
  else if anyIn lower dehumidifierTriggers then otherDeviceResult st
  else if anyIn lower airTriggers then otherDeviceResult st
  else if anyIn lower rodentTriggers then otherDeviceResult st
  else if anyIn lower temperatureTriggerKeywords then
    handleTemperatureControl sendOk st text
  else if anyIn lower ventilationTriggers then otherDeviceResult st
  else if anyIn text cabinetTriggers then
    handleCabinetControl sendOk st text
  else if anyIn text [s2l "第", s2l "列"] &&
      anyIn text [s2l "打开", s2l "关闭", s2l "开", s2l "关"] then
    handleCabinetControl sendOk st text
  else if anyIn lower statusTriggers then otherDeviceResult st
  else { response := some .llm, events := [.aiResponse], state := st }

/-- `_handle_exit_command`: in chat mode only the chat flag is dropped
    (the conversation state is not reset); otherwise the conversation
    state is reset. -/
def handleExitCommand (st : HState) : TurnResult :=
  if st.chatMode then
    { response := some .farewell, events := [],
      state := { st with chatMode := false, isExited := true } }
  else
    { response := some .farewell, events := [],
      state := { st with isExited := true, conv := resetConvState } }

/-- `CommandHandler.process_command`: one conversation turn.  `sendOk`
    models the Boolean result of `send_websocket_message` (the socket
    being configured and healthy); an event is listed exactly when the
    source emits on that channel. -/
def processCommand (sendOk : Bool) (st : HState) (text : List Char) :
    TurnResult :=
  if text = [] then { response := none, events := [], state := st }
  else
    let cleaned := cleanText text
    if isPureWakeupCall cleaned then
      { response := some .greeting, events := [], state := st }
    else if isExitCommand st.chatMode cleaned then
      handleExitCommand st
    else if looksLikeSelectionCommand cleaned then
      handleSelection sendOk st cleaned
    else if st.conv.waitingForColumn then
      handleColumnInput sendOk st cleaned
    else if isArchiveQueryByName cleaned then
      handleArchiveQuery sendOk st cleaned text
    else if isExplicitDeviceControl cleaned then
      handleDeviceControl sendOk st cleaned
    else
      { response := some .llm, events := [.aiResponse], state := st }

/-! ### LLM-response post-processing (`OllamaClient._filter_think_tags`) -/

def openTag : List Char := s2l "<think>"

def closeTag : List Char := s2l "</think>"

/-- Index of the first occurrence of `pat` in a text. -/
def findSubIdx (pat : List Char) : List Char → Option Nat
  | [] => if pat.isEmpty then some 0 else none
  | c :: t =>
    if pat.isPrefixOf (c :: t) then some 0
    else (findSubIdx pat t).map (· + 1)

/-- Fuel-driven worker for `removeThinkBlocks` (one fuel unit per
    consumed character suffices). -/
def removeThinkBlocksF : Nat → List Char → List Char
  | 0, l => l
  | _ + 1, [] => []
  | fuel + 1, c :: t =>
    if openTag.isPrefixOf (c :: t) then
      match findSubIdx closeTag ((c :: t).drop openTag.length) with
      | some i =>
        removeThinkBlocksF fuel
          ((c :: t).drop (openTag.length + i + closeTag.length))
      | none => c :: removeThinkBlocksF fuel t
    else c :: removeThinkBlocksF fuel t

/-- `re.sub(r'<think>.*?</think>', '', text, flags=re.DOTALL)`: each
    `<think>` opener is deleted up to the next `</think>`; an opener with
    no closer never matches and is kept. -/
def removeThinkBlocks (l : List Char) : List Char :=
  removeThinkBlocksF l.length l

def defaultThinkReply : List Char :=
  s2l "我还在学习中，暂时无法回答这个问题。您可以尝试询问档案查询、档案柜控制或其他相关问题。"

/-- `OllamaClient._filter_think_tags`: falsy input is returned unchanged;
    otherwise the span-removed text is stripped, and a blank remainder is
    replaced by the fixed fallback sentence. -/
def filterThinkTags (text : List Char) : List Char :=
  if text = [] then text
  else
    let filtered := removeThinkBlocks text
    if (trimWs filtered).isEmpty then defaultThinkReply
    else trimWs filtered

/-! ### Claim-side definitions -/

/-- The close verbs of the exit-classification claim. -/
def closeVerbs : List (List Char) :=
  [s2l "关闭", s2l "关", s2l "关掉", s2l "关上"]

/-- The device nouns named by the claim: cabinet, column, temperature,
    humidity, ventilation, status. -/
def deviceNounsClaim : List (List Char) :=
  [s2l "柜子", s2l "列", s2l "温度", s2l "湿度", s2l "通风", s2l "状态"]

/-- A close verb immediately followed by a device noun occurs in the
    text. -/
def hasCloseNounAdjacent (l : List Char) : Bool :=
  closeVerbs.any (fun v =>
    deviceNounsClaim.any (fun n => containsSub l (v ++ n)))

/-- The claimed conversation-state invariant
    `mode == Idle ⇔ pendingAction == None`, on the embedded state:
    not-idle (some awaiting flag set) iff a pending action is recorded. -/
def claimIdleIff (s : ConvState) : Bool :=
  (s.expectingSelection || s.waitingForColumn || s.waitingForTemperature)
    == s.pendingAction.isSome

/-- The invariant the code actually maintains: a pending action is
    recorded only while a column or a temperature is awaited. -/
def pendingInv (s : ConvState) : Bool :=
  !s.pendingAction.isSome || s.waitingForColumn || s.waitingForTemperature

/-- A text in fully-normalized form: only word-like characters, no filler
    word, and no non-identity homophone-correction key occurs in it. -/
def noFillerOrKey (l : List Char) : Bool :=
  l.all isWordLike &&
    fillerWords.all (fun w => !containsSub l w) &&
    commonErrors.all (fun p => p.1 == p.2 || !containsSub l p.1)

/-- Modelled from the spec: `render(n)` in the word-numeral column
    phrasing 第⟨numeral⟩列, with the standard word numerals one through
    thirty. -/
def chineseNumeralSpec : Nat → List Char
  | 1 => s2l "一" | 2 => s2l "二" | 3 => s2l "三" | 4 => s2l "四"
  | 5 => s2l "五" | 6 => s2l "六" | 7 => s2l "七" | 8 => s2l "八"
  | 9 => s2l "九" | 10 => s2l "十" | 11 => s2l "十一" | 12 => s2l "十二"
  | 13 => s2l "十三" | 14 => s2l "十四" | 15 => s2l "十五" | 16 => s2l "十六"
  | 17 => s2l "十七" | 18 => s2l "十八" | 19 => s2l "十九" | 20 => s2l "二十"
  | 21 => s2l "二十一" | 22 => s2l "二十二" | 23 => s2l "二十三"
  | 24 => s2l "二十四" | 25 => s2l "二十五" | 26 => s2l "二十六"
  | 27 => s2l "二十七" | 28 => s2l "二十八" | 29 => s2l "二十九"
  | 30 => s2l "三十"
  | _ => []

/-- Modelled from the spec: the word-numeral column phrasing. -/
def renderColumnWordSpec (n : Nat) : List Char :=
  s2l "第" ++ chineseNumeralSpec n ++ s2l "列"

/-- Modelled from the spec: the digit-numeral column phrasing. -/
def renderColumnDigitSpec (n : Nat) : List Char :=
  s2l "第" ++ natStr n ++ s2l "列"

/-- The awaiting-column state as the pipeline itself creates it: the
    state after `open the cabinet` with no column, from the initial
    state. -/
def colWaitState : HState :=
  (processCommand true initialHState (s2l "打开柜子")).state

/-- The awaiting-temperature state as the temperature handler creates it:
    a temperature command carrying no numeral. -/
def tempWaitState : HState :=
  (handleTemperatureControl true initialHState (s2l "设置温度")).state

/-! ### Supporting lemmas -/

theorem containsSub_eq_true_iff {l pat : List Char} :
    containsSub l pat = true ↔ pat <:+: l := by
  induction l with
  | nil =>
    simp [containsSub, List.isPrefixOf_iff_prefix]
  | cons c t ih =>
    rw [containsSub]
    simp [List.isPrefixOf_iff_prefix, ih, List.infix_cons_iff]

theorem containsSub_append_right {l a b : List Char}
    (h : containsSub l (a ++ b) = true) : containsSub l b = true := by
  rw [containsSub_eq_true_iff] at h ⊢
  exact (List.suffix_append a b).isInfix.trans h

theorem anyIn_eq_true_of {l w : List Char} {ws : List (List Char)}
    (hm : w ∈ ws) (hc : containsSub l w = true) : anyIn l ws = true := by
  unfold anyIn
  rw [List.any_eq_true]
  exact ⟨w, hm, hc⟩

theorem replaceAllF_eq_self {pat rep : List Char} :
    ∀ (fuel : Nat) (l : List Char), l.length ≤ fuel →
      containsSub l pat = false → replaceAllF pat rep fuel l = l := by
  intro fuel
  induction fuel with
  | zero =>
    intro l hl _
    cases l with
    | nil => rfl
    | cons c t => simp at hl
  | succ f ih =>
    intro l hl hc
    cases l with
    | nil => rfl
    | cons c t =>
      rw [containsSub, Bool.or_eq_false_iff] at hc
      rw [replaceAllF, hc.1, Bool.and_false, if_neg (by simp)]
      have hlt : t.length ≤ f := by
        simpa [Nat.succ_le_succ_iff] using hl
      rw [ih t hlt hc.2]

theorem replaceAll_eq_self {pat rep l : List Char}
    (hc : containsSub l pat = false) : replaceAll pat rep l = l :=
  replaceAllF_eq_self l.length l le_rfl hc

theorem replaceAllF_id {pat : List Char} :
    ∀ (fuel : Nat) (l : List Char), l.length ≤ fuel →
      replaceAllF pat pat fuel l = l := by
  intro fuel
  induction fuel with
  | zero =>
    intro l hl
    cases l with
    | nil => rfl
    | cons c t => simp at hl
  | succ f ih =>
    intro l hl
    cases l with
    | nil => rfl
    | cons c t =>
      by_cases hcond : (!pat.isEmpty && pat.isPrefixOf (c :: t)) = true
      · rw [replaceAllF, if_pos hcond]
        rw [Bool.and_eq_true] at hcond
        have hne : pat ≠ [] := by
          intro hp
          rw [hp] at hcond
          simp at hcond
        obtain ⟨rest, hrest⟩ := List.isPrefixOf_iff_prefix.mp hcond.2
        rw [← hrest, List.drop_left]
        have hlen : rest.length ≤ f := by
          have h1 : pat.length + rest.length = t.length + 1 := by
            have := congrArg List.length hrest
            simpa [List.length_append] using this
          have h2 : 1 ≤ pat.length := List.length_pos.mpr hne
          have h3 : t.length + 1 ≤ f + 1 := by simpa using hl
          omega
        rw [ih rest hlen]
      · rw [replaceAllF, if_neg hcond]
        have hlt : t.length ≤ f := by
          simpa [Nat.succ_le_succ_iff] using hl
        rw [ih t hlt]

theorem replaceAll_id {pat l : List Char} : replaceAll pat pat l = l :=
  replaceAllF_id l.length l le_rfl

theorem foldl_removeAll_eq_self {l : List Char} :
    ∀ ws : List (List Char), ws.all (fun w => !containsSub l w) = true →
      ws.foldl (fun acc w => removeAll w acc) l = l := by
  intro ws
  induction ws with
  | nil => intro _; rfl
  | cons w wt ih =>
    intro h
    rw [List.all_cons, Bool.and_eq_true] at h
    have h1 : containsSub l w = false := by simpa using h.1
    show wt.foldl (fun acc w => removeAll w acc) (removeAll w l) = l
    rw [removeAll, replaceAll_eq_self h1]
    exact ih h.2

theorem foldl_corrections_eq_self {l : List Char} :
    ∀ ps : List (List Char × List Char),
      ps.all (fun p => p.1 == p.2 || !containsSub l p.1) = true →
      ps.foldl (fun acc p => replaceAll p.1 p.2 acc) l = l := by
  intro ps
  induction ps with
  | nil => intro _; rfl
  | cons p pt ih =>
    intro h
    rw [List.all_cons, Bool.and_eq_true] at h
    show pt.foldl (fun acc p => replaceAll p.1 p.2 acc)
      (replaceAll p.1 p.2 l) = l
    have hhead : replaceAll p.1 p.2 l = l := by
      have h1 := h.1
      simp only [Bool.or_eq_true] at h1
      rcases h1 with heq | hnc
      · have : p.1 = p.2 := by simpa using heq
        rw [← this, replaceAll_id]
      · exact replaceAll_eq_self (by simpa using hnc)
    rw [hhead]
    exact ih h.2

theorem isWs_eq_false_of_isWordLike {c : Char}
    (h : isWordLike c = true) : isWs c = false := by
  by_contra hne
  have hws : isWs c = true := by
    revert hne
    cases isWs c <;> simp
  unfold isWs at hws
  simp only [Bool.or_eq_true, beq_iff_eq] at hws
  rcases hws with ((((((h1 | h1) | h1) | h1) | h1) | h1) | h1) <;>
    subst h1 <;> exact absurd h (by decide)

theorem filter_keep_of_wordlike {l : List Char}
    (h : l.all isWordLike = true) : l.filter keepChar = l := by
  rw [List.filter_eq_self]
  intro c hc
  have := List.all_eq_true.mp h c hc
  simp [keepChar, this]

theorem filter_notWs_of_wordlike {l : List Char}
    (h : l.all isWordLike = true) : l.filter (fun c => !isWs c) = l := by
  rw [List.filter_eq_self]
  intro c hc
  have := List.all_eq_true.mp h c hc
  simp [isWs_eq_false_of_isWordLike this]

/-! ### C4 — idempotence of normalization -/

/-- C4 counterexample: normalization is not idempotent.  On 那那个个 the
    filler-deletion pass merges the outer characters into a fresh
    occurrence of the filler 那个, which only a second pass removes. -/
theorem cleanText_not_idempotent :
    cleanText (cleanText (s2l "那那个个")) ≠ cleanText (s2l "那那个个") := by
  decide

/-- C4 (amended): normalization is idempotent on every input whose
    normalized form consists of word-like characters and contains no
    filler word and no non-identity homophone-correction key; on such
    inputs no normalization rule finds new work. -/
theorem cleanText_idem_of_normal (t : List Char)
    (h : noFillerOrKey (cleanText t) = true) :
    cleanText (cleanText t) = cleanText t := by
  unfold noFillerOrKey at h
  rw [Bool.and_eq_true, Bool.and_eq_true] at h
  obtain ⟨⟨hw, hf⟩, hk⟩ := h
  set y := cleanText t with hy
  by_cases hnil : y = []
  · rw [hnil]
    rfl
  · have hstep : cleanText y =
        (commonErrors.foldl (fun acc p => replaceAll p.1 p.2 acc)
          (fillerWords.foldl (fun acc w => removeAll w acc)
            (y.filter keepChar))).filter (fun c => !isWs c) := by
      rw [cleanText, if_neg hnil]
    rw [hstep, filter_keep_of_wordlike hw, foldl_removeAll_eq_self _ hf,
      foldl_corrections_eq_self _ hk]
    exact filter_notWs_of_wordlike hw

/-- C4 witness: a concrete normal-form input for the amended theorem. -/
theorem cleanText_idem_of_normal_witness :
    noFillerOrKey (cleanText (s2l "第三列")) = true ∧
      cleanText (cleanText (s2l "第三列")) = cleanText (s2l "第三列") :=
  ⟨by decide, cleanText_idem_of_normal _ (by decide)⟩

/-! ### C5 — a close verb followed by a device noun is never exit -/

/-- C5: any normalized input containing a close verb immediately followed
    by a device noun (cabinet, column, temperature, humidity,
    ventilation, status) is rejected by the exit check: the device noun
    is itself a device indicator, and the indicator scan returns `False`
    before any exit pattern is consulted.  (`chat_mode` is `False`
    throughout the source: nothing ever sets it.) -/
theorem close_then_device_not_exit (t : List Char)
    (h : hasCloseNounAdjacent (cleanText t) = true) :
    isExitCommand false t = false := by
  have hnoun : ∃ n ∈ deviceNounsClaim, containsSub (cleanText t) n = true := by
    unfold hasCloseNounAdjacent at h
    rw [List.any_eq_true] at h
    obtain ⟨v, _, h2⟩ := h
    rw [List.any_eq_true] at h2
    obtain ⟨n, hn, h3⟩ := h2
    exact ⟨n, hn, containsSub_append_right h3⟩
  obtain ⟨n, hn, hcont⟩ := hnoun
  have hmem : n ∈ deviceIndicators := by
    fin_cases hn <;> decide
  have hdev : anyIn (cleanText t) deviceIndicators = true :=
    anyIn_eq_true_of hmem hcont
  by_cases ht : t = []
  · simp [isExitCommand, ht]
  · rw [isExitCommand, if_neg ht]
    simp only [Bool.false_and, if_false]
    cases hcc : anyIn (cleanText t) closeCabinetKeywords <;>
      simp [hcc, hdev]

/-- C5 witness: the canonical close-the-cabinet utterance. -/
theorem close_then_device_not_exit_witness :
    hasCloseNounAdjacent (cleanText (s2l "关闭柜子")) = true ∧
      isExitCommand false (s2l "关闭柜子") = false :=
  ⟨by decide, close_then_device_not_exit _ (by decide)⟩

/-! ### C7 — the state invariant -/

theorem pendingInv_handleSelection (ok : Bool) (st : HState)
    (t : List Char) (h : pendingInv st.conv = true) :
    pendingInv (handleSelection ok st t).state.conv = true := by
  simp only [handleSelection]
  split <;> split_ifs <;> try split
  all_goals simp_all [pendingInv]

theorem pendingInv_handleColumnInput (ok : Bool) (st : HState)
    (t : List Char) (h : pendingInv st.conv = true) :
    pendingInv (handleColumnInput ok st t).state.conv = true := by
  simp only [handleColumnInput]
  split_ifs <;> try split
  all_goals simp_all [pendingInv]

theorem pendingInv_handleCabinetControl (ok : Bool) (st : HState)
    (t : List Char) (h : pendingInv st.conv = true) :
    pendingInv (handleCabinetControl ok st t).state.conv = true := by
  simp only [handleCabinetControl]
  split_ifs <;> try split
  all_goals simp_all [pendingInv]

theorem pendingInv_handleTemperatureControl (ok : Bool) (st : HState)
    (t : List Char) (h : pendingInv st.conv = true) :
    pendingInv (handleTemperatureControl ok st t).state.conv = true := by
  simp only [handleTemperatureControl]
  split_ifs <;> try split
  all_goals simp_all [pendingInv]

theorem pendingInv_handleArchiveQuery (ok : Bool) (st : HState)
    (t u : List Char) (h : pendingInv st.conv = true) :
    pendingInv (handleArchiveQuery ok st t u).state.conv = true := by
  simp only [handleArchiveQuery]
  split <;> try split_ifs
  all_goals simp_all [pendingInv]

set_option maxHeartbeats 1600000 in
theorem pendingInv_handleDeviceControl (ok : Bool) (st : HState)
    (t : List Char) (h : pendingInv st.conv = true) :
    pendingInv (handleDeviceControl ok st t).state.conv = true := by
  simp only [handleDeviceControl, otherDeviceResult]
  repeat' split
  all_goals first
    | exact h
    | exact pendingInv_handleTemperatureControl ok st t h
    | exact pendingInv_handleCabinetControl ok st t h

theorem pendingInv_handleExitCommand (st : HState)
    (h : pendingInv st.conv = true) :
    pendingInv (handleExitCommand st).state.conv = true := by
  simp only [handleExitCommand]
  split_ifs <;> simp_all [pendingInv, resetConvState]

/-- C7 (amended): the invariant the turn pipeline actually preserves is
    one-directional — a pending action is recorded only while a column or
    a temperature is awaited (in particular, while nothing is awaited the
    pending action is clear).  The claimed biconditional fails for the
    awaiting-selection mode (see the counterexample). -/
theorem pendingInv_processCommand (ok : Bool) (st : HState)
    (t : List Char) (h : pendingInv st.conv = true) :
    pendingInv (processCommand ok st t).state.conv = true := by
  simp only [processCommand]
  split_ifs
  all_goals first
    | exact h
    | exact pendingInv_handleExitCommand st h
    | exact pendingInv_handleSelection ok st (cleanText t) h
    | exact pendingInv_handleColumnInput ok st (cleanText t) h
    | exact pendingInv_handleArchiveQuery ok st (cleanText t) t h
    | exact pendingInv_handleDeviceControl ok st (cleanText t) h

/-- C7 witness: the preserved invariant, instantiated on a concrete turn
    (an open command that starts waiting for a column). -/
theorem pendingInv_processCommand_witness :
    pendingInv initialHState.conv = true ∧
      pendingInv (processCommand true initialHState
        (s2l "打开柜子")).state.conv = true :=
  ⟨by decide, pendingInv_processCommand true initialHState _ (by decide)⟩

/-- C7 counterexample: the claimed biconditional
    `mode == Idle ⇔ pendingAction == None` holds in the reset state but
    is destroyed by an archive-query turn, which enters
    awaiting-selection while leaving the pending action `None`. -/
theorem idleIff_broken_by_archive_query :
    claimIdleIff initialHState.conv = true ∧
      claimIdleIff (processCommand true initialHState
        (s2l "查询0567的档案")).state.conv = false := by
  exact ⟨by decide, by decide⟩

/-! ### C1 — every turn yields a response -/

/-- C1: the claim fails on the code.  From the awaiting-column state
    (created by the pipeline itself), the non-empty input 3列 resolves
    the column, emits the open event — and the turn's response is Python
    `None`: `_handle_column_input` falls off the end of its successful
    open path. -/
theorem resolved_column_yields_no_response :
    (processCommand true colWaitState (s2l "3列")).response = none ∧
      (processCommand true colWaitState (s2l "3列")).events =
        [DevEvent.openCabinet (s2l "3")] ∧
      (processCommand true colWaitState
        (s2l "3列")).state.conv.waitingForColumn = false :=
  ⟨by decide, by decide, by decide⟩

/-! ### C2 — closure of the awaiting-column state -/

/-- C2 (amended): from the awaiting-column state, any input that is not
    first captured by the wake-word, exit, or selection-lookalike checks
    behaves as claimed: a valid extracted column emits exactly one
    cabinet-open event with that column and returns to idle, and a
    failed extraction re-prompts and stays awaiting.  (Short ordinal
    phrases such as 第三个 are captured by the selection check first —
    see the counterexample.) -/
theorem awaitingColumn_closure (st : HState) (t : List Char)
    (hcol : st.conv.waitingForColumn = true)
    (hpend : st.conv.pendingAction = some (s2l "open"))
    (hne : t ≠ [])
    (hwake : isPureWakeupCall (cleanText t) = false)
    (hexit : isExitCommand st.chatMode (cleanText t) = false)
    (hsel : looksLikeSelectionCommand (cleanText t) = false) :
    (∀ c, extractColumnNumber (cleanText t) = some c →
        processCommand true st t =
          { response := none, events := [DevEvent.openCabinet c],
            state := { st with conv :=
              { st.conv with
                  waitingForColumn := false,
                  pendingAction := none,
                  pendingContext := none } } }) ∧
      (extractColumnNumber (cleanText t) = none →
        processCommand true st t =
          { response := some (.text
              (s2l "抱歉，我没有听清楚列号。请告诉我您要打开哪一列柜子？例如：第三列、3列")),
            events := [], state := st }) := by
  have hproc : processCommand true st t =
      handleColumnInput true st (cleanText t) := by
    rw [processCommand, if_neg hne]
    simp only [hwake, hexit, hsel, hcol, Bool.false_eq_true, if_false,
      if_true]
  have hoc : (s2l "open" == s2l "close") = false := by decide
  constructor
  · intro c hc
    rw [hproc, handleColumnInput, hpend]
    simp only [Option.getD_some, hoc, Bool.false_eq_true, if_false, hc]
    exact if_pos trivial
  · intro hc
    rw [hproc, handleColumnInput, hpend]
    simp only [Option.getD_some, hoc, Bool.false_eq_true, if_false, hc]

/-- C2 witness: both halves of the amended closure on concrete turns —
    3列 resolves to column 3, 他们 yields no column and re-prompts. -/
theorem awaitingColumn_closure_witness :
    processCommand true colWaitState (s2l "3列") =
      { response := none, events := [DevEvent.openCabinet (s2l "3")],
        state := { colWaitState with conv :=
          { colWaitState.conv with
              waitingForColumn := false,
              pendingAction := none,
              pendingContext := none } } } ∧
    processCommand true colWaitState (s2l "他们") =
      { response := some (.text
          (s2l "抱歉，我没有听清楚列号。请告诉我您要打开哪一列柜子？例如：第三列、3列")),
        events := [], state := colWaitState } :=
  ⟨(awaitingColumn_closure colWaitState (s2l "3列") (by decide) (by decide)
      (by decide) (by decide) (by decide) (by decide)).1
      (s2l "3") (by decide),
   (awaitingColumn_closure colWaitState (s2l "他们") (by decide) (by decide)
      (by decide) (by decide) (by decide) (by decide)).2 (by decide)⟩

/-- C2 counterexample: 第三个 yields a valid column number (3), yet from
    the awaiting-column state it is routed to the selection handler — a
    `select_record` event is emitted instead of a cabinet-open event and
    the state stays awaiting a column. -/
theorem ordinal_input_escapes_column_wait :
    extractColumnNumber (cleanText (s2l "第三个")) = some (s2l "3") ∧
      (processCommand true colWaitState (s2l "第三个")).events =
        [DevEvent.selectRecord 2] ∧
      (processCommand true colWaitState
        (s2l "第三个")).state.conv.waitingForColumn = true :=
  ⟨by decide, by decide, by decide⟩

/-! ### C3 — the awaiting-temperature state is never continued -/

/-- C3: the claim fails on the code.  `waiting_for_temperature` is set by
    the temperature handler (with the pending direction) and never read
    by `process_command`: the follow-up utterance 五度, although a
    perfectly extractable temperature, is routed to the LLM fallback, no
    temperature dispatch happens, and the state is left unchanged (still
    awaiting). -/
theorem awaiting_temperature_not_continued :
    tempWaitState.conv.waitingForTemperature = true ∧
      tempWaitState.conv.pendingAction = some (s2l "set") ∧
      extractTemperature (cleanText (s2l "五度")) = some (s2l "5") ∧
      (processCommand true tempWaitState (s2l "五度")).response =
        some Resp.llm ∧
      (processCommand true tempWaitState (s2l "五度")).events =
        [DevEvent.aiResponse] ∧
      (processCommand true tempWaitState (s2l "五度")).state =
        tempWaitState :=
  ⟨by decide, by decide, by decide, by decide, by decide, by decide⟩

/-! ### C6 — cabinet close versus cabinet open -/

/-- C6 (amended): a cabinet-close intent never requires a column and
    always emits the single close-all event, and a cabinet-open
    utterance that reaches the cabinet handler with no extractable
    column emits nothing and transitions to awaiting-column with the
    clarifying question.  The bare word 打开 alone, however, never
    reaches the cabinet handler (see the counterexample). -/
theorem cabinet_close_open_contract :
    (∀ (st : HState) (t : List Char),
      anyIn (toLowerAscii t) cabinetCloseKeywords = true →
        handleCabinetControl true st t =
          { response := some (.text (s2l "好的，正在为您关闭所有档案柜")),
            events := [DevEvent.closeCabinet], state := st }) ∧
    (∀ (st : HState) (t : List Char),
      anyIn (toLowerAscii t) cabinetCloseKeywords = false →
        extractColumnNumber t = none →
        handleCabinetControl true st t =
          { response := some (.text
              (s2l "请问您要打开哪一列柜子？例如：第三列、3列")),
            events := [],
            state := { st with conv :=
              { st.conv with
                  waitingForColumn := true,
                  pendingAction := some (s2l "open"),
                  pendingContext := some (s2l "cabinet_control") } } }) := by
  constructor
  · intro st t hclose
    rw [handleCabinetControl]
    simp only [hclose, if_true]
  · intro st t hnc hext
    rw [handleCabinetControl]
    simp only [hnc, Bool.false_eq_true, if_false, hext]

/-- C6 witness: the contract on concrete close and open utterances. -/
theorem cabinet_close_open_contract_witness :
    handleCabinetControl true initialHState (s2l "关闭柜子") =
      { response := some (.text (s2l "好的，正在为您关闭所有档案柜")),
        events := [DevEvent.closeCabinet], state := initialHState } ∧
    handleCabinetControl true initialHState (s2l "打开柜子") =
      { response := some (.text
          (s2l "请问您要打开哪一列柜子？例如：第三列、3列")),
        events := [],
        state := { initialHState with conv :=
          { initialHState.conv with
              waitingForColumn := true,
              pendingAction := some (s2l "open"),
              pendingContext := some (s2l "cabinet_control") } } } :=
  ⟨cabinet_close_open_contract.1 initialHState (s2l "关闭柜子") (by decide),
   cabinet_close_open_contract.2 initialHState (s2l "打开柜子") (by decide)
     (by decide)⟩

/-- C6 counterexample: the bare word 打开 alone does not transition the
    state to awaiting-column.  It fails the explicit device-control
    check, is handed to the LLM fallback, and leaves the state exactly
    as it was. -/
theorem bare_open_does_not_await_column :
    (processCommand true initialHState (s2l "打开")).state =
        initialHState ∧
      (processCommand true initialHState (s2l "打开")).events =
        [DevEvent.aiResponse] :=
  ⟨by decide, by decide⟩

/-! ### C8 — the column slot round-trip -/

/-- C8 counterexample: the word-numeral round-trip fails from 21 on.
    The effective `_extract_column_number` (the later of the two
    definitions) has a lookup table that stops at 二十: rendering 21 in
    word-numeral form extracts nothing. -/
theorem column_word_roundtrip_fails_at_21 :
    extractColumnNumber (renderColumnWordSpec 21) = none := by decide

/-- C8 (amended): the digit-numeral column round-trip holds for every
    column 1..30; the word-numeral round-trip holds exactly on the range
    the effective lookup table covers, 1..20. -/
theorem column_roundtrip (n : Nat) :
    (1 ≤ n → n ≤ 30 →
      extractColumnNumber (renderColumnDigitSpec n) = some (natStr n)) ∧
    (1 ≤ n → n ≤ 20 →
      extractColumnNumber (renderColumnWordSpec n) = some (natStr n)) := by
  constructor
  · intro h1 h2
    interval_cases n <;> decide
  · intro h1 h2
    interval_cases n <;> decide

/-- C8 witness: the round-trip at column 7, both numeral styles. -/
theorem column_roundtrip_witness :
    extractColumnNumber (renderColumnDigitSpec 7) = some (natStr 7) ∧
      extractColumnNumber (renderColumnWordSpec 7) = some (natStr 7) :=
  ⟨(column_roundtrip 7).1 (by decide) (by decide),
   (column_roundtrip 7).2 (by decide) (by decide)⟩

/-! ### C9 — LLM-response post-processing -/

/-- C9 counterexample: the returned response does not always equal the
    input with the `<think>` spans removed — when everything was inside
    a span, a fixed fallback sentence is substituted for the (empty)
    remainder. -/
theorem filterThinkTags_not_plain_removal :
    filterThinkTags (s2l "<think>abc</think>") ≠
      removeThinkBlocks (s2l "<think>abc</think>") := by decide

/-- C9 (amended): whenever the span-removed text is not blank, the
    returned response equals the span-removed text trimmed of
    surrounding whitespace; a blank remainder is replaced by the fixed
    fallback sentence, and falsy input is returned unchanged. -/
theorem filterThinkTags_strips_spans (t : List Char)
    (h : trimWs (removeThinkBlocks t) ≠ []) :
    filterThinkTags t = trimWs (removeThinkBlocks t) := by
  have hne : t ≠ [] := by
    intro ht
    subst ht
    exact h (by decide)
  rw [filterThinkTags, if_neg hne]
  have hie : (trimWs (removeThinkBlocks t)).isEmpty = false := by
    cases he : trimWs (removeThinkBlocks t) with
    | nil => exact absurd he h
    | cons a b => rfl
  simp only [hie, Bool.false_eq_true, if_false]

/-- C9 witness: a reply with an embedded reasoning span. -/
theorem filterThinkTags_strips_spans_witness :
    filterThinkTags (s2l "好<think>x</think>的") =
      trimWs (removeThinkBlocks (s2l "好<think>x</think>的")) :=
  filterThinkTags_strips_spans _ (by decide)

/-! ### C10 — the unchecked 0-based selection index -/

/-- C10: the selection dispatcher emits spoken-index − 1 with no lower
    bound: the utterance 0个 extracts index 0 and a `select_record`
    event carrying index −1 is emitted to the transport. -/
theorem zero_selection_emits_minus_one :
    extractSelectionIndex (s2l "0个") = some 0 ∧
      (processCommand true initialHState (s2l "0个")).events =
        [DevEvent.selectRecord (-1)] :=
  ⟨by decide, by decide⟩

end VoiceCore
